import Mathlib

/-!
Verification development for the capmNodeSample repository: a shallow
embedding of the model-driven service runtime described in the repository
specification (request pipeline, hook dispatch, transactions, default CRUD)
together with the two concrete handlers implemented in
`srv/catalog-service.js`, and proofs of the stated properties.
-/

/-- Field names are strings, as in the JSON payloads of the service. -/
abbrev FName := String

/-- Field values, modelled as strings (IDs, dates, messages). -/
abbrev Value := String

/-- A record is an association list from field names to values; an absent
field models a null/undefined JSON member. -/
abbrev Record := List (FName × Value)

/-- Read a field of a record; `none` models null/absent. -/
def getField : Record → FName → Option Value
  | [], _ => none
  | p :: r, f => if p.1 = f then some p.2 else getField r f

/-- Assign a field of a record (JS `obj.f = v`): replace the first binding
of `f`, or append one if absent. -/
def setField : Record → FName → Value → Record
  | [], f, v => [(f, v)]
  | p :: r, f, v => if p.1 = f then (f, v) :: r else p :: setField r f v

/-- Events of the hook registry: the four CRUD events plus custom
operation names (spec section 3, Hook Registration). -/
inductive Event
  | create | read | update | delete | custom (name : String)
deriving DecidableEq

/-- The error taxonomy of spec section 7. -/
inductive Err
  | validationError | notFound | duplicateKey | duplicateEntity | duplicateOp
  | forbidden | opNotAllowed | unimplemented | commitFailed | txClosed
  | registryFrozen
deriving DecidableEq

/-- Result values an operation can produce: no content (DELETE/UPDATE),
a single record (CREATE, custom actions), or a list of records (READ). -/
inductive ResVal
  | unitRes
  | one (r : Record)
  | many (rs : List Record)
deriving DecidableEq

/-- Transaction state (spec section 3): terminal once committed or rolled
back. -/
inductive TxState
  | opened | committed | rolledBack
deriving DecidableEq

/-- The pipeline states of the request state machine (spec section 4.4). -/
inductive PState
  | received | resolving | beforeHooks | executing | afterHooks
  | committing | rollingBack | responded
deriving DecidableEq

/-- The request context handed to handlers: the (mutable) input payload and
the opaque principal supplied by the auth collaborator. -/
structure Ctx where
  data : Record
  principal : String

/-- A `before` handler may mutate the input payload or signal an error. -/
abbrev BeforeHandler := Ctx → Except Err Record

/-- An `on` handler produces the operation result or signals an error. -/
abbrev OnHandler := Ctx → Except Err ResVal

/-- An `after` handler may replace the result (`some`), keep it (`none`),
or throw. -/
abbrev AfterHandler := ResVal → Except Err (Option ResVal)

/-- Modelled from the spec: the hook registry (section 3), an ordered list
per phase keyed by (event, target). The source registers into it via
`srv.before` / `srv.on` in `catalog-service.js`. -/
structure Hooks where
  befores : List (Event × String × BeforeHandler)
  ons : List (Event × String × OnHandler)
  afters : List (Event × String × AfterHandler)

/-- Modelled from the spec: dispatch resolution (section 4.2) — exact
target matches first, then wildcard matches, each in registration order. -/
def matchingHandlers (l : List (Event × String × α)) (e : Event) (t : String) :
    List α :=
  (l.filter (fun p => p.1 == e && p.2.1 == t)).map (fun p => p.2.2)
    ++ (l.filter (fun p => p.1 == e && p.2.1 == "*" && !(t == "*"))).map
        (fun p => p.2.2)

/-- Modelled from the spec: run the `before` handlers sequentially, each
seeing the mutations of its predecessors; an error short-circuits the
rest (section 4.2). Also returns how many handlers were invoked. -/
def runBefores : List BeforeHandler → Ctx → Except Err Record × Nat
  | [], c => (.ok c.data, 0)
  | h :: hs, c =>
    match h c with
    | .error e => (.error e, 1)
    | .ok d =>
      match runBefores hs { c with data := d } with
      | (res, n) => (res, n + 1)

/-- Modelled from the spec: run the `after` handlers sequentially; a
handler returning no value keeps the previous result, an error routes the
pipeline to rollback (sections 4.2, 4.4). Also counts invocations. -/
def runAfters : List AfterHandler → ResVal → Except Err ResVal × Nat
  | [], v => (.ok v, 0)
  | h :: hs, v =>
    match h v with
    | .error e => (.error e, 1)
    | .ok vo =>
      match runAfters hs (vo.getD v) with
      | (res, n) => (res, n + 1)

/-- An entity definition of the model registry: name and key fields
(from `db/schema.cds`). -/
structure EntityDef where
  name : String
  keyFields : List FName

/-- A service projection with its restriction set (spec section 3,
Service Definition). -/
structure Projection where
  name : String
  source : String
  insertable : Bool := true
  updatable : Bool := true
  deletable : Bool := true

/-- A service definition: exposed projections and custom operations. -/
structure SrvDef where
  projections : List Projection
  operations : List String

/-- The resolved target of a request: a source entity with its key fields,
or a custom operation. -/
inductive Resolved
  | entity (src : String) (keys : List FName)
  | op (name : String)

/-- The persistence store: pairs of (entity name, record). -/
abbrev Store := List (String × Record)

/-- Key of a record: its values at the entity's key fields. -/
def keyOf (keys : List FName) (r : Record) : Record :=
  keys.filterMap (fun k => (getField r k).map (fun v => (k, v)))

/-- Whether a record with the same key as `d` exists for entity `ename`. -/
def keyPresent (ename : String) (keys : List FName) (st : Store) (d : Record) :
    Bool :=
  st.any (fun p => p.1 == ename && keyOf keys p.2 == keyOf keys d)

/-- A filter predicate matches a record when every listed field is present
with the listed value. -/
def matchFilter (flt : Record) (r : Record) : Bool :=
  flt.all (fun p => getField r p.1 == some p.2)

/-- Modelled from the spec: default CREATE — insert, failing `DuplicateKey`
on key collision (spec sections 4.4, 6). -/
def crudCreate (ename : String) (keys : List FName) (st : Store) (d : Record) :
    Except Err Store :=
  if keyPresent ename keys st d then .error .duplicateKey
  else .ok ((ename, d) :: st)

/-- Modelled from the spec: default READ — zero or more records matching a
filter; empty result is success (spec section 4.4). -/
def crudRead (ename : String) (st : Store) (flt : Record) : List Record :=
  (st.filter (fun p => p.1 == ename && matchFilter flt p.2)).map (fun p => p.2)

/-- Merge a patch into a record, field by field. -/
def mergeRecord (r patch : Record) : Record :=
  patch.foldl (fun acc p => setField acc p.1 p.2) r

/-- Modelled from the spec: default UPDATE — fails `NotFound` if the key is
absent (spec section 4.4). -/
def crudUpdate (ename : String) (keys : List FName) (st : Store) (d : Record) :
    Except Err Store :=
  if keyPresent ename keys st d then
    .ok (st.map (fun p =>
      if p.1 == ename && keyOf keys p.2 == keyOf keys d then
        (p.1, mergeRecord p.2 d)
      else p))
  else .error .notFound

/-- Modelled from the spec: default DELETE — fails `NotFound` if the key is
already absent; the idempotent-success policy is explicitly not granted
(spec sections 4.4, 8). -/
def crudDelete (ename : String) (keys : List FName) (st : Store) (d : Record) :
    Except Err Store :=
  if keyPresent ename keys st d then
    .ok (st.filter (fun p => !(p.1 == ename && keyOf keys p.2 == keyOf keys d)))
  else .error .notFound

/-- Modelled from the spec: the `Resolving` phase (spec sections 4.4, 4.5) —
look up the target projection or custom operation; restriction annotations
such as `insertable:false` reject the request here with
`OperationNotAllowed`, before any hook runs. -/
def resolve (defs : List EntityDef) (srv : SrvDef) (ev : Event) (target : String) :
    Except Err Resolved :=
  match ev with
  | .custom n => if srv.operations.contains n then .ok (.op n) else .error .notFound
  | _ =>
    match srv.projections.find? (fun p => p.name == target) with
    | none => .error .notFound
    | some p =>
      if ev == .create && !p.insertable then .error .opNotAllowed
      else if ev == .update && !p.updatable then .error .opNotAllowed
      else if ev == .delete && !p.deletable then .error .opNotAllowed
      else
        match defs.find? (fun e => e.name == p.source) with
        | none => .error .notFound
        | some e => .ok (.entity p.source e.keyFields)

/-- Modelled from the spec: the `Executing` phase (spec section 4.4) — the
first registered `on` handler produces the result; with none registered, a
custom operation fails `Unimplemented` and a CRUD event falls back to the
default CRUD implementation. Returns the result with the updated working
store, the number of `on` handler calls, and the number of default-CRUD
invocations. -/
def execPhase (tgt : Resolved) (ons : List OnHandler) (st : Store) (c : Ctx)
    (ev : Event) (flt : Record) : Except Err (ResVal × Store) × Nat × Nat :=
  match ons with
  | h :: _ =>
    (match h c with
     | .error e => .error e
     | .ok v => .ok (v, st), 1, 0)
  | [] =>
    match tgt with
    | .op _ => (.error .unimplemented, 0, 0)
    | .entity src keys =>
      (match ev with
       | .create =>
         (match crudCreate src keys st c.data with
          | .error e => .error e
          | .ok st' => .ok (.one c.data, st'))
       | .read => .ok (.many (crudRead src st flt), st)
       | .update =>
         (match crudUpdate src keys st c.data with
          | .error e => .error e
          | .ok st' => .ok (.unitRes, st'))
       | .delete =>
         (match crudDelete src keys st c.data with
          | .error e => .error e
          | .ok st' => .ok (.unitRes, st'))
       | .custom _ => .error .unimplemented, 0, 1)

/-- An inbound request: operation kind, target name, payload, READ filter
and principal. -/
structure Request where
  event : Event
  target : String
  data : Record
  flt : Record := []
  principal : String := ""

deriving instance DecidableEq for Except

/-- The observable outcome of one request: response or error, terminal
transaction state, resulting global store, the sequence of pipeline states
entered, and how many handlers of each phase (and default-CRUD
implementations) ran. -/
structure Outcome where
  response : Except Err ResVal
  tx : TxState
  store : Store
  trace : List PState
  beforeCalls : Nat
  onCalls : Nat
  afterCalls : Nat
  crudCalls : Nat
deriving DecidableEq

/-- Total number of hook handler invocations of a request. -/
def Outcome.hookCalls (o : Outcome) : Nat :=
  o.beforeCalls + o.onCalls + o.afterCalls

/-- Modelled from the spec: the request execution pipeline (spec section
4.4): `Received → Resolving → BeforeHooks → Executing → AfterHooks →
Committing → Responded`, with every error routing to `RollingBack`; the
transaction's working store becomes the global store only on commit, and a
rollback leaves the global store untouched. `AfterHooks` runs strictly
before `Committing`. -/
def runRequest (defs : List EntityDef) (srv : SrvDef) (hooks : Hooks)
    (st : Store) (req : Request) : Outcome :=
  match resolve defs srv req.event req.target with
  | .error e =>
    { response := .error e, tx := .rolledBack, store := st,
      trace := [.received, .resolving, .rollingBack, .responded],
      beforeCalls := 0, onCalls := 0, afterCalls := 0, crudCalls := 0 }
  | .ok tgt =>
    match runBefores (matchingHandlers hooks.befores req.event req.target)
        { data := req.data, principal := req.principal } with
    | (.error e, bn) =>
      { response := .error e, tx := .rolledBack, store := st,
        trace := [.received, .resolving, .beforeHooks, .rollingBack, .responded],
        beforeCalls := bn, onCalls := 0, afterCalls := 0, crudCalls := 0 }
    | (.ok d, bn) =>
      match execPhase tgt (matchingHandlers hooks.ons req.event req.target) st
          { data := d, principal := req.principal } req.event req.flt with
      | (.error e, onN, crudN) =>
        { response := .error e, tx := .rolledBack, store := st,
          trace := [.received, .resolving, .beforeHooks, .executing,
                    .rollingBack, .responded],
          beforeCalls := bn, onCalls := onN, afterCalls := 0, crudCalls := crudN }
      | (.ok (v, st'), onN, crudN) =>
        match runAfters (matchingHandlers hooks.afters req.event req.target) v with
        | (.error e, an) =>
          { response := .error e, tx := .rolledBack, store := st,
            trace := [.received, .resolving, .beforeHooks, .executing,
                      .afterHooks, .rollingBack, .responded],
            beforeCalls := bn, onCalls := onN, afterCalls := an,
            crudCalls := crudN }
        | (.ok v', an) =>
          { response := .ok v', tx := .committed, store := st',
            trace := [.received, .resolving, .beforeHooks, .executing,
                      .afterHooks, .committing, .responded],
            beforeCalls := bn, onCalls := onN, afterCalls := an,
            crudCalls := crudN }

/-- The `my.sample.Products` entity of `db/schema.cds`: key `ID`. -/
def productsEntity : EntityDef := { name := "Products", keyFields := ["ID"] }

/-- The `my.sample.Orders` entity of `db/schema.cds`: key `ID` (UUID). -/
def ordersEntity : EntityDef := { name := "Orders", keyFields := ["ID"] }

/-- The `my.sample.OrderItems` entity of `db/schema.cds`: key `ID`. -/
def orderItemsEntity : EntityDef := { name := "OrderItems", keyFields := ["ID"] }

/-- The model registry built from `db/schema.cds`. -/
def sampleDefs : List EntityDef := [productsEntity, ordersEntity, orderItemsEntity]

/-- The `CatalogService` of `srv/catalog-service.cds`: three unrestricted
projections, no declared custom operations. -/
def catalogSrv : SrvDef :=
  { projections :=
      [{ name := "Products", source := "Products" },
       { name := "Orders", source := "Orders" },
       { name := "OrderItems", source := "OrderItems" }],
    operations := [] }

/-- The before-CREATE-Orders handler of `srv/catalog-service.js` (lines
4-6): `req.data.orderDate = new Date().toISOString()`. The current
timestamp is passed in as the parameter `now`. -/
def beforeCreateOrders (now : Value) : BeforeHandler :=
  fun c => .ok (setField c.data "orderDate" now)

/-- The `placeOrder` handler of `srv/catalog-service.js` (lines 7-9):
returns the constant object with message field, independent of the
request. -/
def placeOrder : OnHandler :=
  fun _ => .ok (.one [("message", "Order Placed Successfully")])

/-- The hook registrations performed by the module of
`srv/catalog-service.js`: `srv.before(CREATE, Orders, ...)` and
`srv.on(placeOrder, ...)`. -/
def catalogHooks (now : Value) : Hooks :=
  { befores := [(.create, "Orders", beforeCreateOrders now)],
    ons := [(.custom "placeOrder", "", placeOrder)],
    afters := [] }

/-- No hooks registered, for scenarios exercising the default pipeline. -/
def noHooks : Hooks := { befores := [], ons := [], afters := [] }

/-- Modelled from the spec: the `orderBook` scenario of spec section 8 — an
`on` handler returning an object with an `orderId` field. -/
def orderBook : OnHandler := fun _ => .ok (.one [("orderId", "ob-1")])

/-- Modelled from the spec: a service declaring the custom operation
`orderBook` of the spec section 8 scenario. -/
def orderBookSrv : SrvDef := { projections := [], operations := ["orderBook"] }

/-- A request invoking the custom `orderBook` operation. -/
def orderBookReq : Request := { event := .custom "orderBook", target := "", data := [] }

/-- Setting a field makes it readable with the new value. -/
theorem getField_setField_same (r : Record) (f : FName) (v : Value) :
    getField (setField r f v) f = some v := by
  induction r with
  | nil => simp [setField, getField]
  | cons p r ih =>
    by_cases h : p.1 = f
    · simp [setField, h, getField]
    · simp [setField, h, getField, ih]

/-- Setting a field leaves every other field unchanged. -/
theorem getField_setField_ne (r : Record) (f g : FName) (v : Value)
    (h : g ≠ f) : getField (setField r f v) g = getField r g := by
  induction r with
  | nil => simp [setField, getField, Ne.symm h]
  | cons p r ih =>
    by_cases hp : p.1 = f
    · simp [setField, hp, getField, Ne.symm h, h]
    · by_cases hg : p.1 = g
      · simp [setField, hp, getField, hg, h]
      · simp [setField, hp, getField, hg, ih]

/-- C9: the before-CREATE-Orders handler mutates only the `orderDate`
field of the payload: `orderDate` is unconditionally overwritten with the
server-generated timestamp (whatever the client supplied), and every other
field — `ID`, `items`, anything else — reads back unchanged. -/
theorem beforeCreateOrders_frame (now : Value) (c : Ctx) :
    ∃ d : Record, beforeCreateOrders now c = .ok d ∧
      getField d "orderDate" = some now ∧
      ∀ f : FName, f ≠ "orderDate" → getField d f = getField c.data f :=
  ⟨setField c.data "orderDate" now, rfl,
   getField_setField_same c.data "orderDate" now,
   fun f hf => getField_setField_ne c.data "orderDate" f now hf⟩

/-- Witness for C9 at a concrete payload that also supplies a client
`orderDate`: the stamp wins and `ID` is untouched. -/
theorem beforeCreateOrders_frame_witness :
    ∃ d : Record,
      beforeCreateOrders "T0"
        { data := [("ID", "o1"), ("orderDate", "client")], principal := "u" } = .ok d ∧
      getField d "orderDate" = some "T0" ∧ getField d "ID" = some "o1" := by
  obtain ⟨d, h1, h2, h3⟩ :=
    beforeCreateOrders_frame "T0"
      { data := [("ID", "o1"), ("orderDate", "client")], principal := "u" }
  exact ⟨d, h1, h2, by rw [h3 "ID" (by decide)]; rfl⟩

/-- C10: the `placeOrder` handler is a constant function — it returns
`{message: 'Order Placed Successfully'}` for every request context, any
two invocations with different payloads and principals give equal results,
and when it executes in the pipeline the store is returned unchanged (no
persistence operation is performed). -/
theorem placeOrder_constant :
    (∀ c : Ctx, placeOrder c = .ok (.one [("message", "Order Placed Successfully")])) ∧
    (∀ c₁ c₂ : Ctx, placeOrder c₁ = placeOrder c₂) ∧
    (∀ (tgt : Resolved) (hs : List OnHandler) (st : Store) (c : Ctx)
        (ev : Event) (flt : Record),
      (execPhase tgt (placeOrder :: hs) st c ev flt).1 =
        .ok (.one [("message", "Order Placed Successfully")], st)) :=
  ⟨fun _ => rfl, fun _ _ => rfl, fun _ _ _ _ _ _ => rfl⟩

/-- C4: with the before-CREATE-Orders hook registered as in
`catalog-service.js`, a CREATE of the payload with `ID` "o1" and empty
`items` commits, and the stored record has a non-null `orderDate` equal to
the generated timestamp while `ID` and `items` are unchanged. -/
theorem createOrders_stampsOrderDate (now : Value) :
    ∃ r : Record,
      (runRequest sampleDefs catalogSrv (catalogHooks now) []
        { event := .create, target := "Orders",
          data := [("ID", "o1"), ("items", "[]")] }).tx = .committed ∧
      (runRequest sampleDefs catalogSrv (catalogHooks now) []
        { event := .create, target := "Orders",
          data := [("ID", "o1"), ("items", "[]")] }).store = [("Orders", r)] ∧
      getField r "orderDate" = some now ∧
      getField r "ID" = some "o1" ∧ getField r "items" = some "[]" :=
  ⟨[("ID", "o1"), ("items", "[]"), ("orderDate", now)], rfl, rfl, rfl, rfl, rfl⟩

/-- C1: if the `before` handlers dispatched for a request's (event, target)
signal an error, then no `on` handler and no default CRUD implementation
runs, the transaction is rolled back (the global store is untouched), and
the pipeline never enters `Committing`. -/
theorem beforeError_shortCircuits (defs : List EntityDef) (srv : SrvDef)
    (hooks : Hooks) (st : Store) (req : Request) (e : Err)
    (hb : (runBefores (matchingHandlers hooks.befores req.event req.target)
        { data := req.data, principal := req.principal }).1 = .error e) :
    (runRequest defs srv hooks st req).onCalls = 0 ∧
    (runRequest defs srv hooks st req).crudCalls = 0 ∧
    (runRequest defs srv hooks st req).tx = .rolledBack ∧
    (runRequest defs srv hooks st req).store = st ∧
    PState.committing ∉ (runRequest defs srv hooks st req).trace := by
  unfold runRequest
  cases hres : resolve defs srv req.event req.target with
  | error e' => simp
  | ok tgt =>
    rcases hrb : runBefores (matchingHandlers hooks.befores req.event req.target)
        { data := req.data, principal := req.principal } with ⟨res, bn⟩
    rw [hrb] at hb
    cases res with
    | error e' => simp [hrb]
    | ok d => simp at hb

/-- A before handler that rejects every request with a validation error,
for the atomicity scenario of C1. -/
def rejectAll : BeforeHandler := fun _ => .error .validationError

/-- Hook registry whose only before-CREATE-Orders handler rejects. -/
def rejectHooks : Hooks :=
  { befores := [(.create, "Orders", rejectAll)], ons := [], afters := [] }

/-- Witness for C1: a rejecting before hook on CREATE Orders leaves the
store untouched, rolls back, and runs neither `on` handler nor CRUD. -/
theorem beforeError_shortCircuits_witness :
    (runBefores (matchingHandlers rejectHooks.befores Event.create "Orders")
        { data := [("ID", "o1")], principal := "" }).1 =
      .error .validationError ∧
    ((runRequest sampleDefs catalogSrv rejectHooks []
        { event := .create, target := "Orders", data := [("ID", "o1")] }).onCalls = 0 ∧
     (runRequest sampleDefs catalogSrv rejectHooks []
        { event := .create, target := "Orders", data := [("ID", "o1")] }).crudCalls = 0 ∧
     (runRequest sampleDefs catalogSrv rejectHooks []
        { event := .create, target := "Orders", data := [("ID", "o1")] }).tx = .rolledBack ∧
     (runRequest sampleDefs catalogSrv rejectHooks []
        { event := .create, target := "Orders", data := [("ID", "o1")] }).store = [] ∧
     PState.committing ∉ (runRequest sampleDefs catalogSrv rejectHooks []
        { event := .create, target := "Orders", data := [("ID", "o1")] }).trace) :=
  ⟨rfl, beforeError_shortCircuits sampleDefs catalogSrv rejectHooks []
    { event := .create, target := "Orders", data := [("ID", "o1")] }
    .validationError rfl⟩

/-- C2: an error thrown by an `after` hook routes the pipeline to
`RollingBack` before the transaction is committed: the trace runs
`AfterHooks` strictly before any commit could happen, never enters
`Committing`, the transaction rolls back, and the global store keeps its
pre-request value (no persistence change of the request is committed). -/
theorem afterError_rollsBack (defs : List EntityDef) (srv : SrvDef)
    (hooks : Hooks) (st : Store) (req : Request) (tgt : Resolved) (d : Record)
    (bn : Nat) (v : ResVal) (st' : Store) (onN crudN : Nat) (e : Err) (an : Nat)
    (hres : resolve defs srv req.event req.target = .ok tgt)
    (hb : runBefores (matchingHandlers hooks.befores req.event req.target)
        { data := req.data, principal := req.principal } = (.ok d, bn))
    (hx : execPhase tgt (matchingHandlers hooks.ons req.event req.target) st
        { data := d, principal := req.principal } req.event req.flt =
      (.ok (v, st'), onN, crudN))
    (ha : runAfters (matchingHandlers hooks.afters req.event req.target) v =
      (.error e, an)) :
    (runRequest defs srv hooks st req).tx = .rolledBack ∧
    (runRequest defs srv hooks st req).store = st ∧
    (runRequest defs srv hooks st req).trace =
      [.received, .resolving, .beforeHooks, .executing, .afterHooks,
       .rollingBack, .responded] ∧
    PState.committing ∉ (runRequest defs srv hooks st req).trace := by
  simp only [runRequest, hres, hb, hx, ha]
  exact ⟨trivial, trivial, trivial, by decide⟩

/-- An after hook that throws, for the C2 scenario. -/
def afterThrows : AfterHandler := fun _ => .error .commitFailed

/-- Hook registry for the C2 scenario: an `on` handler for `orderBook`
followed by an after hook that throws. -/
def afterThrowHooks : Hooks :=
  { befores := [],
    ons := [(.custom "orderBook", "", orderBook)],
    afters := [(.custom "orderBook", "", afterThrows)] }

/-- Witness for C2: the throwing after hook of the `orderBook` request
rolls the transaction back before commit. -/
theorem afterError_rollsBack_witness :
    resolve sampleDefs orderBookSrv (Event.custom "orderBook") "" =
      .ok (.op "orderBook") ∧
    runBefores (matchingHandlers afterThrowHooks.befores
        (Event.custom "orderBook") "") { data := [], principal := "" } =
      (.ok [], 0) ∧
    execPhase (.op "orderBook")
        (matchingHandlers afterThrowHooks.ons (Event.custom "orderBook") "") []
        { data := [], principal := "" } (Event.custom "orderBook") [] =
      (.ok (.one [("orderId", "ob-1")], []), 1, 0) ∧
    runAfters (matchingHandlers afterThrowHooks.afters
        (Event.custom "orderBook") "") (.one [("orderId", "ob-1")]) =
      (.error .commitFailed, 1) ∧
    ((runRequest sampleDefs orderBookSrv afterThrowHooks [] orderBookReq).tx =
        .rolledBack ∧
     (runRequest sampleDefs orderBookSrv afterThrowHooks [] orderBookReq).store = [] ∧
     (runRequest sampleDefs orderBookSrv afterThrowHooks [] orderBookReq).trace =
       [.received, .resolving, .beforeHooks, .executing, .afterHooks,
        .rollingBack, .responded] ∧
     PState.committing ∉
       (runRequest sampleDefs orderBookSrv afterThrowHooks [] orderBookReq).trace) :=
  ⟨rfl, rfl, rfl, rfl,
   afterError_rollsBack sampleDefs orderBookSrv afterThrowHooks [] orderBookReq
     (.op "orderBook") [] 0 (.one [("orderId", "ob-1")]) [] 1 0 .commitFailed 1
     rfl rfl rfl rfl⟩

/-- C3: when an `on` handler is registered for a custom operation and it
produces a value, the pipeline's response is exactly that value (here with
no after hooks registered for the operation), the default CRUD
implementation is never invoked, and the store is unchanged. -/
theorem onHandler_resultExact (defs : List EntityDef) (srv : SrvDef)
    (hooks : Hooks) (st : Store) (req : Request) (n : String) (h : OnHandler)
    (hs : List OnHandler) (d : Record) (bn : Nat) (v : ResVal)
    (hres : resolve defs srv req.event req.target = .ok (.op n))
    (hb : runBefores (matchingHandlers hooks.befores req.event req.target)
        { data := req.data, principal := req.principal } = (.ok d, bn))
    (hons : matchingHandlers hooks.ons req.event req.target = h :: hs)
    (hh : h { data := d, principal := req.principal } = .ok v)
    (hafters : matchingHandlers hooks.afters req.event req.target = []) :
    (runRequest defs srv hooks st req).response = .ok v ∧
    (runRequest defs srv hooks st req).crudCalls = 0 ∧
    (runRequest defs srv hooks st req).store = st ∧
    (runRequest defs srv hooks st req).tx = .committed := by
  simp only [runRequest, hres, hb, hons, execPhase, hh, hafters, runAfters]
  exact ⟨trivial, trivial, trivial, trivial⟩

/-- Hook registry of the C3 scenario: only the `orderBook` on handler. -/
def orderBookHooks : Hooks :=
  { befores := [], ons := [(.custom "orderBook", "", orderBook)], afters := [] }

/-- Witness for C3: invoking `orderBook` returns exactly the handler's
`{orderId}` object and the default CRUD is never invoked. -/
theorem onHandler_resultExact_witness :
    resolve sampleDefs orderBookSrv (Event.custom "orderBook") "" =
      .ok (.op "orderBook") ∧
    runBefores (matchingHandlers orderBookHooks.befores
        (Event.custom "orderBook") "") { data := [], principal := "" } =
      (.ok [], 0) ∧
    matchingHandlers orderBookHooks.ons (Event.custom "orderBook") "" =
      [orderBook] ∧
    orderBook { data := [], principal := "" } = .ok (.one [("orderId", "ob-1")]) ∧
    matchingHandlers orderBookHooks.afters (Event.custom "orderBook") "" = [] ∧
    ((runRequest sampleDefs orderBookSrv orderBookHooks [] orderBookReq).response =
        .ok (.one [("orderId", "ob-1")]) ∧
     (runRequest sampleDefs orderBookSrv orderBookHooks [] orderBookReq).crudCalls = 0 ∧
     (runRequest sampleDefs orderBookSrv orderBookHooks [] orderBookReq).store = [] ∧
     (runRequest sampleDefs orderBookSrv orderBookHooks [] orderBookReq).tx =
        .committed) :=
  ⟨rfl, rfl, rfl, rfl, rfl,
   onHandler_resultExact sampleDefs orderBookSrv orderBookHooks [] orderBookReq
     "orderBook" orderBook [] [] 0 (.one [("orderId", "ob-1")])
     rfl rfl rfl rfl rfl⟩

/-- C7: a custom operation with no registered `on` handler fails with
`Unimplemented` at runtime — the request is rolled back and never returns
an empty success result. -/
theorem missingOnHandler_unimplemented (defs : List EntityDef) (srv : SrvDef)
    (hooks : Hooks) (st : Store) (req : Request) (n : String) (d : Record)
    (bn : Nat)
    (hres : resolve defs srv req.event req.target = .ok (.op n))
    (hons : matchingHandlers hooks.ons req.event req.target = [])
    (hb : runBefores (matchingHandlers hooks.befores req.event req.target)
        { data := req.data, principal := req.principal } = (.ok d, bn)) :
    (runRequest defs srv hooks st req).response = .error .unimplemented ∧
    (runRequest defs srv hooks st req).tx = .rolledBack ∧
    (runRequest defs srv hooks st req).store = st := by
  simp only [runRequest, hres, hb, hons, execPhase]
  exact ⟨trivial, trivial, trivial⟩

/-- Witness for C7: invoking `orderBook` with no handler registered fails
`Unimplemented` and rolls back. -/
theorem missingOnHandler_unimplemented_witness :
    resolve sampleDefs orderBookSrv (Event.custom "orderBook") "" =
      .ok (.op "orderBook") ∧
    matchingHandlers noHooks.ons (Event.custom "orderBook") "" = [] ∧
    runBefores (matchingHandlers noHooks.befores (Event.custom "orderBook") "")
        { data := [], principal := "" } = (.ok [], 0) ∧
    ((runRequest sampleDefs orderBookSrv noHooks [] orderBookReq).response =
        .error .unimplemented ∧
     (runRequest sampleDefs orderBookSrv noHooks [] orderBookReq).tx = .rolledBack ∧
     (runRequest sampleDefs orderBookSrv noHooks [] orderBookReq).store = []) :=
  ⟨rfl, rfl, rfl,
   missingOnHandler_unimplemented sampleDefs orderBookSrv noHooks [] orderBookReq
     "orderBook" [] 0 rfl rfl rfl⟩

/-- C6: a DELETE request whose (post-before-hook) key is absent from the
store fails with `NotFound` and is rolled back — it never silently
succeeds, the idempotent-success policy is not granted. -/
theorem deleteAbsent_notFound (defs : List EntityDef) (srv : SrvDef)
    (hooks : Hooks) (st : Store) (req : Request) (src : String)
    (keys : List FName) (d : Record) (bn : Nat)
    (hev : req.event = .delete)
    (hres : resolve defs srv req.event req.target = .ok (.entity src keys))
    (hons : matchingHandlers hooks.ons req.event req.target = [])
    (hb : runBefores (matchingHandlers hooks.befores req.event req.target)
        { data := req.data, principal := req.principal } = (.ok d, bn))
    (habs : keyPresent src keys st d = false) :
    (runRequest defs srv hooks st req).response = .error .notFound ∧
    (runRequest defs srv hooks st req).tx = .rolledBack ∧
    (runRequest defs srv hooks st req).store = st := by
  rw [hev] at hres hons hb
  simp [runRequest, hev, hres, hb, hons, execPhase, crudDelete, habs]

/-- A DELETE request for Orders key "o9". -/
def deleteReq : Request := { event := .delete, target := "Orders", data := [("ID", "o9")] }

/-- Witness for C6: deleting the absent Orders key "o9" from the empty
store fails `NotFound` and rolls back. -/
theorem deleteAbsent_notFound_witness :
    deleteReq.event = .delete ∧
    resolve sampleDefs catalogSrv deleteReq.event deleteReq.target =
      .ok (.entity "Orders" ["ID"]) ∧
    matchingHandlers noHooks.ons deleteReq.event deleteReq.target = [] ∧
    runBefores (matchingHandlers noHooks.befores deleteReq.event deleteReq.target)
        { data := deleteReq.data, principal := deleteReq.principal } =
      (.ok [("ID", "o9")], 0) ∧
    keyPresent "Orders" ["ID"] [] [("ID", "o9")] = false ∧
    ((runRequest sampleDefs catalogSrv noHooks [] deleteReq).response =
        .error .notFound ∧
     (runRequest sampleDefs catalogSrv noHooks [] deleteReq).tx = .rolledBack ∧
     (runRequest sampleDefs catalogSrv noHooks [] deleteReq).store = []) :=
  ⟨rfl, rfl, rfl, rfl, rfl,
   deleteAbsent_notFound sampleDefs catalogSrv noHooks [] deleteReq "Orders"
     ["ID"] [("ID", "o9")] 0 rfl rfl rfl rfl rfl⟩

/-- C8: a CREATE request against a projection compiled with
`insertable:false` fails with `OperationNotAllowed` in the `Resolving`
phase: zero hooks of any phase are invoked, the trace goes straight from
`Resolving` to `RollingBack`, and the transaction rolls back. -/
theorem insertableFalse_rejectsBeforeHooks (defs : List EntityDef)
    (srv : SrvDef) (hooks : Hooks) (st : Store) (req : Request)
    (p : Projection)
    (hev : req.event = .create)
    (hp : srv.projections.find? (fun q => q.name == req.target) = some p)
    (hins : p.insertable = false) :
    (runRequest defs srv hooks st req).response = .error .opNotAllowed ∧
    (runRequest defs srv hooks st req).hookCalls = 0 ∧
    (runRequest defs srv hooks st req).crudCalls = 0 ∧
    (runRequest defs srv hooks st req).trace =
      [.received, .resolving, .rollingBack, .responded] ∧
    (runRequest defs srv hooks st req).tx = .rolledBack := by
  have hres : resolve defs srv req.event req.target = .error .opNotAllowed := by
    rw [hev]
    simp only [resolve, hp, hins]
    rfl
  simp only [runRequest, hres, Outcome.hookCalls]
  exact ⟨trivial, trivial, trivial, trivial, trivial⟩

/-- The restricted service of the C8 scenario: the Orders projection is
compiled with `insertable:false`. -/
def restrictedSrv : SrvDef :=
  { projections :=
      [{ name := "Orders", source := "Orders", insertable := false }],
    operations := [] }

/-- Witness for C8: CREATE against the non-insertable Orders projection —
with the catalog before-CREATE hook registered — is rejected at Resolving
with zero hook invocations. -/
theorem insertableFalse_rejectsBeforeHooks_witness :
    (Request.event { event := .create, target := "Orders", data := [("ID", "o1")] } = .create) ∧
    restrictedSrv.projections.find?
        (fun q => q.name == Request.target { event := .create, target := "Orders", data := [("ID", "o1")] }) =
      some { name := "Orders", source := "Orders", insertable := false } ∧
    (Projection.insertable { name := "Orders", source := "Orders", insertable := false } = false) ∧
    ((runRequest sampleDefs restrictedSrv (catalogHooks "T0") []
        { event := .create, target := "Orders", data := [("ID", "o1")] }).response =
        .error .opNotAllowed ∧
     (runRequest sampleDefs restrictedSrv (catalogHooks "T0") []
        { event := .create, target := "Orders", data := [("ID", "o1")] }).hookCalls = 0 ∧
     (runRequest sampleDefs restrictedSrv (catalogHooks "T0") []
        { event := .create, target := "Orders", data := [("ID", "o1")] }).crudCalls = 0 ∧
     (runRequest sampleDefs restrictedSrv (catalogHooks "T0") []
        { event := .create, target := "Orders", data := [("ID", "o1")] }).trace =
       [.received, .resolving, .rollingBack, .responded] ∧
     (runRequest sampleDefs restrictedSrv (catalogHooks "T0") []
        { event := .create, target := "Orders", data := [("ID", "o1")] }).tx =
       .rolledBack) :=
  ⟨rfl, rfl, rfl,
   insertableFalse_rejectsBeforeHooks sampleDefs restrictedSrv (catalogHooks "T0")
     [] { event := .create, target := "Orders", data := [("ID", "o1")] }
     { name := "Orders", source := "Orders", insertable := false } rfl rfl rfl⟩

/-- Every pair listed in a record's key is a field of the record. -/
theorem getField_of_mem_keyOf (keys : List FName) (r : Record)
    (p : FName × Value) (hp : p ∈ keyOf keys r) : getField r p.1 = some p.2 := by
  unfold keyOf at hp
  rw [List.mem_filterMap] at hp
  obtain ⟨k, _, hk⟩ := hp
  cases hg : getField r k with
  | none => rw [hg] at hk; simp at hk
  | some v =>
    rw [hg] at hk
    simp only [Option.map_some'] at hk
    cases hk
    exact hg

/-- A record always matches the filter built from its own key. -/
theorem matchFilter_keyOf_self (keys : List FName) (d : Record) :
    matchFilter (keyOf keys d) d = true := by
  unfold matchFilter
  rw [List.all_eq_true]
  intro p hp
  rw [beq_iff_eq]
  exact getField_of_mem_keyOf keys d p hp

/-- A record that matches the key filter of a key-complete record has the
same key. -/
theorem keyOf_eq_of_matchFilter (keys : List FName) (d r : Record)
    (hk : ∀ k ∈ keys, (getField d k).isSome)
    (hm : matchFilter (keyOf keys d) r = true) :
    keyOf keys r = keyOf keys d := by
  unfold keyOf
  apply List.filterMap_congr
  intro k hkmem
  obtain ⟨v, hv⟩ := Option.isSome_iff_exists.mp (hk k hkmem)
  have hmemk : (k, v) ∈ keyOf keys d := by
    unfold keyOf
    rw [List.mem_filterMap]
    exact ⟨k, hkmem, by rw [hv]; rfl⟩
  have hr : getField r k = some v := by
    unfold matchFilter at hm
    rw [List.all_eq_true] at hm
    have := hm (k, v) hmemk
    rwa [beq_iff_eq] at this
  rw [hr, hv]

/-- C5: round trip — a successful default-CRUD CREATE of a key-complete
payload, immediately followed by a READ whose filter matches the new key,
returns exactly one record, and that record is the created payload itself
(the payload after generated fields were stamped by before hooks). -/
theorem createRead_roundTrip (ename : String) (keys : List FName)
    (st st' : Store) (d : Record)
    (hk : ∀ k ∈ keys, (getField d k).isSome)
    (hc : crudCreate ename keys st d = .ok st') :
    crudRead ename st' (keyOf keys d) = [d] := by
  unfold crudCreate at hc
  by_cases hdup : keyPresent ename keys st d
  · rw [if_pos hdup] at hc; cases hc
  · rw [if_neg hdup] at hc
    cases hc
    unfold crudRead
    rw [List.filter_cons]
    have hhead : (((ename, d).1 == ename) && matchFilter (keyOf keys d) (ename, d).2) = true := by
      simp [matchFilter_keyOf_self]
    rw [if_pos hhead]
    have htail : st.filter (fun p => p.1 == ename && matchFilter (keyOf keys d) p.2) = [] := by
      rw [List.filter_eq_nil_iff]
      intro p hp hcond
      apply hdup
      unfold keyPresent
      rw [List.any_eq_true]
      refine ⟨p, hp, ?_⟩
      rw [Bool.and_eq_true] at hcond
      rw [Bool.and_eq_true]
      refine ⟨hcond.1, ?_⟩
      rw [beq_iff_eq]
      exact keyOf_eq_of_matchFilter keys d p.2 hk hcond.2
    rw [htail]
    rfl

/-- Witness for C5: creating Orders "o1" in the empty store and reading it
back by key returns exactly the created record. -/
theorem createRead_roundTrip_witness :
    (∀ k ∈ ["ID"], (getField [("ID", "o1")] k).isSome) ∧
    crudCreate "Orders" ["ID"] [] [("ID", "o1")] =
      .ok [("Orders", [("ID", "o1")])] ∧
    crudRead "Orders" [("Orders", [("ID", "o1")])] (keyOf ["ID"] [("ID", "o1")]) =
      [[("ID", "o1")]] :=
  ⟨by decide, rfl,
   createRead_roundTrip "Orders" ["ID"] [] [("Orders", [("ID", "o1")])]
     [("ID", "o1")] (by decide) rfl⟩
